import Mathlib

/-!
Verification development for the `Scrapper` repository's timetable
extraction core (`src/schedule_parser/parse_cg.py`).

The HTML document is modelled after BeautifulSoup's parsed tree: a node is
either an element tag (with a name, an attribute list and child nodes) or a
text node.  The functions below embed, one for one, the Python helpers used
by `parse_schedule_from_cg`: `find`/`find_all` (pre-order descendant
search), `.text` / `get_text(" ", strip=True)`, multi-valued `class`
attributes, `int(...)` conversion, the two module regexes, and Python
exception behaviour (`AttributeError` on `None` attribute access,
`TypeError` on `int(None)`, `ValueError` on bad int text, `IndexError` on
`[-1]` of an empty list, `UnboundLocalError` on reading an unassigned
local).  Fallible evaluation is embedded as `Except PyErr`.
-/

/-- Python exception kinds that the parsing code can raise. -/
inductive PyErr where
  | attributeError
  | typeError
  | valueError
  | indexError
  | unboundLocalError
deriving DecidableEq, Repr

mutual
/-- A parsed HTML tree node: an element tag with attributes and children, or
a text node (BeautifulSoup `Tag` / `NavigableString`).  The child sequence
is its own inductive so that all tree recursions below are structural (and
so compute inside the kernel). -/
inductive Node where
  | tag (name : String) (attrs : List (String × String)) (children : NodeList)
  | text (s : String)

/-- A sequence of sibling nodes. -/
inductive NodeList where
  | nil
  | cons (n : Node) (l : NodeList)
end

/-- Build a child sequence from a list. -/
def NodeList.ofList : List Node → NodeList
  | [] => .nil
  | n :: l => .cons n (NodeList.ofList l)

/-- Element-tag construction helper used by the concrete fixtures. -/
def Node.el (name : String) (attrs : List (String × String))
    (children : List Node) : Node :=
  .tag name attrs (NodeList.ofList children)

/-- Direct children of a node (`Tag.contents`; a text node has none). -/
def Node.childrenOf : Node → NodeList
  | .tag _ _ cs => cs
  | .text _ => .nil

/-- All descendant tags named `nm` of the nodes of a child sequence, in
document (pre-)order: each element itself, then its subtree, then its later
siblings.  This is the order BeautifulSoup's `find_all` produces. -/
def findAllTagsIn (nm : String) : NodeList → List Node
  | .nil => []
  | .cons (.text _) rest => findAllTagsIn nm rest
  | .cons (.tag n a cs) rest =>
      (if n = nm then [Node.tag n a cs] else []) ++
        findAllTagsIn nm cs ++ findAllTagsIn nm rest

/-- `elt.find_all(nm)`: all descendant tags named `nm`, document order. -/
def findAllTags (nm : String) (n : Node) : List Node :=
  findAllTagsIn nm n.childrenOf

/-- `elt.find(nm)`: first descendant tag named `nm`, or `None`. -/
def findTag (nm : String) (n : Node) : Option Node :=
  (findAllTags nm n).head?

/-- The text-node strings under the nodes of a child sequence, in document
order. -/
def textsOfList : NodeList → List String
  | .nil => []
  | .cons (.text s) rest => s :: textsOfList rest
  | .cons (.tag _ _ cs) rest => textsOfList cs ++ textsOfList rest

/-- The text-node strings under a node (a text node yields itself). -/
def textsOf : Node → List String
  | .text s => [s]
  | .tag _ _ cs => textsOfList cs

/-- `elt.text` / `elt.get_text()`: concatenation of all descendant strings. -/
def textOf (n : Node) : String :=
  String.join (textsOf n)

/-- Python `\s` / `str.strip()` whitespace (ASCII part; the pages use
ASCII whitespace only). -/
def pySpace (c : Char) : Bool :=
  c = ' ' || c = '\t' || c = '\n' || c = '\r' || c = '\x0b' || c = '\x0c'

/-- Strip leading and trailing whitespace from a character list. -/
def trimChars (l : List Char) : List Char :=
  ((l.dropWhile pySpace).reverse.dropWhile pySpace).reverse

/-- Python `str.strip()`. -/
def pyStrip (s : String) : String :=
  String.mk (trimChars s.toList)

/-- `elt.get_text(" ", strip=True)`: each descendant string stripped, empty
ones dropped, the rest joined with a single space. -/
def getTextSepStrip (n : Node) : String :=
  String.intercalate " " (((textsOf n).map pyStrip).filter (fun s => s ≠ ""))

/-- `elt.get(key)` for a single-valued attribute. -/
def attrOf (n : Node) (key : String) : Option String :=
  match n with
  | .tag _ attrs _ => (attrs.find? (fun p => p.1 = key)).map (fun p => p.2)
  | .text _ => none

/-- `elt.has_attr(key)`. -/
def hasAttr (n : Node) (key : String) : Bool :=
  (attrOf n key).isSome

/-- Python `str.split()` with no separator: split on whitespace runs,
dropping empty pieces.  `acc` holds the current word reversed. -/
def splitWsAux : List Char → List Char → List String
  | [], [] => []
  | [], acc => [String.mk acc.reverse]
  | c :: rest, acc =>
      if pySpace c then
        match acc with
        | [] => splitWsAux rest []
        | _ => String.mk acc.reverse :: splitWsAux rest []
      else splitWsAux rest (c :: acc)

/-- `elt.get("class")`: BeautifulSoup splits the `class` attribute on
whitespace into a list of class names (`None` when absent). -/
def classOf (n : Node) : Option (List String) :=
  (attrOf n "class").map (fun v => splitWsAux v.toList [])

/-- `elt.find("a", class_=cls, href=True)`: first descendant `a` tag whose
class list contains `cls` and which carries an `href` attribute. -/
def findLink (cls : String) (n : Node) : Option Node :=
  ((findAllTags "a" n).filter
      (fun a => hasAttr a "href" && ((classOf a).getD []).contains cls)).head?

/-- Numeric value of a digit list, `none` if empty or not all ASCII digits
(Python `int(...)` digit parsing). -/
def digitsVal : List Char → Option Nat
  | [] => none
  | [c] => if c.isDigit then some (c.toNat - '0'.toNat) else none
  | c :: rest =>
      if c.isDigit then
        (digitsVal rest).map (fun v =>
          (c.toNat - '0'.toNat) * 10 ^ rest.length + v)
      else none

/-- Python `int(s)` on a string: strip whitespace, optional sign, digits;
raises `ValueError` otherwise. -/
def pyIntStr (s : String) : Except PyErr Int :=
  match trimChars s.toList with
  | '+' :: ds =>
      match digitsVal ds with
      | some v => .ok (Int.ofNat v)
      | none => .error .valueError
  | '-' :: ds =>
      match digitsVal ds with
      | some v => .ok (-(Int.ofNat v))
      | none => .error .valueError
  | ds =>
      match digitsVal ds with
      | some v => .ok (Int.ofNat v)
      | none => .error .valueError

/-- Python `int(x)` where `x` is an optional string attribute value:
`int(None)` raises `TypeError`. -/
def pyInt : Option String → Except PyErr Int
  | none => .error .typeError
  | some s => pyIntStr s

/-- Python `datetime.date` value (year, month, day). -/
structure PyDate where
  y : Nat
  m : Nat
  d : Nat
deriving DecidableEq, Repr

/-- Gregorian leap-year rule used by `datetime.date`. -/
def isLeap (y : Nat) : Bool :=
  y % 4 = 0 && (y % 100 ≠ 0 || y % 400 = 0)

/-- Days in a month, as validated by the `datetime.date` constructor. -/
def daysInMonth (y m : Nat) : Nat :=
  if m = 2 then (if isLeap y then 29 else 28)
  else if m = 4 || m = 6 || m = 9 || m = 11 then 30
  else 31

/-- Validity check of `datetime.date(y, m, d)` (raises `ValueError` when
false). -/
def dateOK (y m d : Nat) : Bool :=
  1 ≤ y && y ≤ 9999 && 1 ≤ m && m ≤ 12 && 1 ≤ d && d ≤ daysInMonth y m

/-- Attempt of the regex `(?P<d>\d{2})\.(?P<m>\d{2})\.(?P<y>\d{4})` at the
head of a character list: day, month, year digit groups. -/
def dateMatchAt : List Char → Option (Nat × Nat × Nat)
  | d1 :: d2 :: '.' :: m1 :: m2 :: '.' :: y1 :: y2 :: y3 :: y4 :: _ =>
      if d1.isDigit && d2.isDigit && m1.isDigit && m2.isDigit &&
          y1.isDigit && y2.isDigit && y3.isDigit && y4.isDigit then
        some ((d1.toNat - '0'.toNat) * 10 + (d2.toNat - '0'.toNat),
              (m1.toNat - '0'.toNat) * 10 + (m2.toNat - '0'.toNat),
              (y1.toNat - '0'.toNat) * 1000 +
                (y2.toNat - '0'.toNat) * 100 +
                (y3.toNat - '0'.toNat) * 10 + (y4.toNat - '0'.toNat))
      else none
  | _ => none

/-- `_DATE_RE.search`: leftmost occurrence of the date pattern. -/
def dateSearch : List Char → Option (Nat × Nat × Nat)
  | [] => none
  | c :: rest =>
      match dateMatchAt (c :: rest) with
      | some g => some g
      | none => dateSearch rest

/-- `_parse_date_from_text`: search the text for `dd.mm.yyyy`; build the
date, returning `None` when the regex fails or the date is invalid. -/
def parse_date_from_text (text : String) : Option PyDate :=
  match dateSearch text.toList with
  | none => none
  | some (d, m, y) => if dateOK y m d then some ⟨y, m, d⟩ else none

/-- Match of `\s*\((?P<typ>[^()]*)\)\s*$` against a character list: the
leading whitespace, an opening paren, a maximal paren-free inner group, the
closing paren, then only whitespace to the end.  Returns the inner group.
Each regex piece here is deterministic (no backtracking can succeed where
the greedy reading fails, since `\s`, `[^()]` and the literals are
disjoint). -/
def suffixMatch (l : List Char) : Option (List Char) :=
  match l.dropWhile pySpace with
  | '(' :: rest =>
      let inner := rest.takeWhile (fun c => !(c = '(') && !(c = ')'))
      match rest.drop inner.length with
      | ')' :: tail => if tail.all pySpace then some inner else none
      | _ => none
  | _ => none

/-- Lazy-prefix search of `^(?P<subj>.*?)(?:\s*\((?P<typ>[^()]*)\)\s*)?$`
with the optional group present: the shortest newline-free prefix whose
remainder matches the parenthetical suffix.  (`.` does not cross `\n` in
Python, and at equal prefix length the regex engine prefers the group
present.)  Returns `(subject prefix, inner group)`. -/
def findSplit : List Char → Option (List Char × List Char)
  | [] => none
  | c :: rest =>
      match suffixMatch (c :: rest) with
      | some inner => some ([], inner)
      | none =>
          if c = '\n' then none
          else (findSplit rest).map (fun p => (c :: p.1, p.2))

/-- `_parse_subject_and_type`: strip the raw text; empty gives `("", None)`;
otherwise apply `_SUBJECT_TYPE_RE`.  When no parenthetical suffix exists the
subject is the whole (stripped) string and the type is `None`; a blank
parenthetical also yields type `None`. -/
def parse_subject_and_type (subject_raw : String) : String × Option String :=
  let s := pyStrip subject_raw
  if s = "" then ("", none)
  else
    match findSplit s.toList with
    | some (subjChars, innerChars) =>
        let subj := pyStrip (String.mk subjChars)
        let typ := pyStrip (String.mk innerChars)
        (subj, if typ = "" then none else some typ)
    | none => (s, none)

/-- Output entity of the extractor (`LessonEvent` dataclass). -/
structure LessonEvent where
  date : PyDate
  group_code : String
  slot_number : Nat
  subgroup : Nat
  subject_text : String
  lesson_type : Option String
  teacher_text : Option String
  room_text : Option String
  source_group_url : String
  source_journal_url : Option String
  source_teacher_url : Option String
  source_room_url : Option String
deriving DecidableEq, Repr

/-- `_extract_event_from_lesson_td`: build a `LessonEvent` from one lesson
cell, or nothing when the cell has no visible text.  Never fails. -/
def extract_event_from_lesson_td (td : Node) (lesson_date : PyDate)
    (group_code : String) (slot_number subgroup : Nat)
    (source_group_url : String) : Option LessonEvent :=
  let cell_text := getTextSepStrip td
  if cell_text = "" then none
  else
    let a_subj := findLink "z1" td
    let subject_raw := match a_subj with
      | some a => getTextSepStrip a
      | none => ""
    let journal_url := a_subj.map (fun a => pyStrip ((attrOf a "href").getD ""))
    let st := parse_subject_and_type subject_raw
    let a_room := findLink "z2" td
    let room_text := a_room.map getTextSepStrip
    let room_url := a_room.map (fun a => pyStrip ((attrOf a "href").getD ""))
    let a_teacher := findLink "z3" td
    let teacher_text := a_teacher.map getTextSepStrip
    let teacher_url := a_teacher.map (fun a => pyStrip ((attrOf a "href").getD ""))
    let subject_text :=
      if st.1 = "" then
        (if pyStrip subject_raw ≠ "" then pyStrip subject_raw else cell_text)
      else st.1
    some { date := lesson_date, group_code := group_code,
           slot_number := slot_number, subgroup := subgroup,
           subject_text := subject_text, lesson_type := st.2,
           teacher_text := teacher_text, room_text := room_text,
           source_group_url := source_group_url,
           source_journal_url := journal_url,
           source_teacher_url := teacher_url,
           source_room_url := room_url }

/-- `_colspanCounter`: read the displayed integer of the last header cell.
`None` table or absent `thead` raises `AttributeError`; an empty header
cell list raises `IndexError`; a last cell with no child nodes falls off
the loop and returns `None`; otherwise `int(...)` of the first child's
text. -/
def colspanCounter : Option Node → Except PyErr (Option Int)
  | none => .error .attributeError
  | some t =>
    match findTag "thead" t with
    | none => .error .attributeError
    | some th =>
      match (findAllTags "td" th).getLast? with
      | none => .error .indexError
      | some lastTd =>
        match lastTd.childrenOf with
        | .nil => .ok none
        | .cons c _ =>
          match pyIntStr (textOf c) with
          | .error e => .error e
          | .ok n => .ok (some n)

/-- The walker's skip test on a cell: cells with a `rowspan` attribute or
whose class list is exactly `['hd']` are not lesson cells. -/
def skipCell (td : Node) : Bool :=
  hasAttr td "rowspan" || classOf td == some ["hd"]

/-- The subgroup index the walker assigns to a lesson cell: `0` when the
cell's colspan equals the header's max colspan (a `None` max colspan never
compares equal), else the incremented running counter. -/
def subgroupFor (maxCols : Option Int) (c : Int) (sg : Nat) : Nat :=
  match maxCols with
  | some m => if c = m then 0 else sg + 1
  | none => sg + 1

/-- Inner cell loop of `parse_schedule_from_cg` over one row's `td` list:
skip non-lesson cells, read `int(td.get("colspan"))` (raising on a missing
or malformed attribute), assign the subgroup, and collect the extracted
events in cell order. -/
def processTds (maxCols : Option Int) (d : PyDate) (g : String) (slot : Nat)
    (url : String) : Nat → List Node → Except PyErr (List LessonEvent)
  | _, [] => .ok []
  | sg, td :: rest =>
    if skipCell td then processTds maxCols d g slot url sg rest
    else
      match pyInt (attrOf td "colspan") with
      | .error e => .error e
      | .ok c =>
        let sg' := subgroupFor maxCols c sg
        match processTds maxCols d g slot url sg' rest with
        | .error e => .error e
        | .ok evs =>
          match extract_event_from_lesson_td td d g slot sg' url with
          | some ev => .ok (ev :: evs)
          | none => .ok evs

/-- Row loop of `parse_schedule_from_cg`.  The first state component models
the Python local `table_date`: `none` is the unassigned state (reading it
raises `UnboundLocalError`), `some none` is `table_date = None`, and
`some (some d)` an active date context.  A row with exactly three cells
re-assigns the date from its first cell's text; an active date makes the
row a lesson row (slot counter incremented, cells processed); a slot
counter of 8 clears the date context. -/
def walkRows (maxCols : Option Int) (g url : String) :
    Option (Option PyDate) → Nat → List Node → Except PyErr (List LessonEvent)
  | _, _, [] => .ok []
  | tdate, slot, tr :: rest =>
    let tds := findAllTags "td" tr
    let tdate1 :=
      if tds.length = 3 then
        match tds.head? with
        | some t0 => some (parse_date_from_text (textOf t0))
        | none => tdate
      else tdate
    match tdate1 with
    | none => .error .unboundLocalError
    | some none =>
        if slot = 8 then walkRows maxCols g url (some none) 0 rest
        else walkRows maxCols g url (some none) slot rest
    | some (some d) =>
        match processTds maxCols d g (slot + 1) url 0 tds with
        | .error e => .error e
        | .ok evs =>
          let st := if slot + 1 = 8 then ((some none : Option (Option PyDate)), 0)
                    else (some (some d), slot + 1)
          match walkRows maxCols g url st.1 st.2 rest with
          | .error e => .error e
          | .ok evs' => .ok (evs ++ evs')

/-- Sort key used by the final `events.sort`: the Python tuple
`(e.date, e.slot_number, e.subgroup)` with dates compared
lexicographically by year, month, day. -/
def evKey (e : LessonEvent) : List Nat :=
  [e.date.y, e.date.m, e.date.d, e.slot_number, e.subgroup]

/-- Lexicographic non-strict comparison of equal-length `Nat` lists. -/
def natsLE : List Nat → List Nat → Bool
  | [], _ => true
  | _ :: _, [] => false
  | a :: as, b :: bs => a < b || (a = b && natsLE as bs)

/-- The sort order on events: key-wise lexicographic `≤`. -/
def evLE (a b : LessonEvent) : Prop :=
  natsLE (evKey a) (evKey b) = true

instance : DecidableRel evLE := fun a b =>
  inferInstanceAs (Decidable (_ = true))

/-- `events.sort(key=...)`: a stable sort by `evKey` (Python's sort is a
stable mergesort; insertion sort realises the same stable order). -/
def sortEvents (evs : List LessonEvent) : List LessonEvent :=
  List.insertionSort evLE evs

/-- Everything of `parse_schedule_from_cg` before the final sort: find the
first table, compute the header max colspan (its failures propagate), then
walk the rows with `table_date` unassigned and the slot counter at 0. -/
def parseEventsRaw (soup : Node) (cg_url group_code : String) :
    Except PyErr (List LessonEvent) :=
  let table? := findTag "table" soup
  match colspanCounter table? with
  | .error e => .error e
  | .ok maxCols =>
    match table? with
    | none => .error .attributeError
    | some t => walkRows maxCols group_code cg_url none 0 (findAllTags "tr" t)

/-- `parse_schedule_from_cg`: the full extraction.  The `date_from` and
`date_to` window parameters are accepted but unused, as in the source. -/
def parse_schedule_from_cg (soup : Node) (cg_url group_code : String)
    (date_from date_to : PyDate) : Except PyErr (List LessonEvent) :=
  (parseEventsRaw soup cg_url group_code).map sortEvents

/-- A header block whose last (single) cell displays the integer 2. -/
def theadTwo : Node := Node.el "thead" [] [Node.el "td" [] [.text "2"]]

/-- A date row: exactly three cells, all marked `hd` (so skipped as lesson
cells), the first displaying `13.01.2026`. -/
def dateRow : Node := Node.el "tr" []
  [ Node.el "td" [("class", "hd")] [.text "13.01.2026"],
    Node.el "td" [("class", "hd")] [.text "Пн"],
    Node.el "td" [("class", "hd")] [] ]

/-- Lesson row with two lesson-class cells, each `colspan="1"`. -/
def lessonRowSplit : Node := Node.el "tr" []
  [ Node.el "td" [("class", "ur"), ("colspan", "1")] [.text "Математика"],
    Node.el "td" [("class", "ur"), ("colspan", "1")] [.text "Физика"] ]

/-- The C2 scenario document: header max colspan 2, one date row
`13.01.2026`, one lesson row with two colspan-1 lesson cells. -/
def docC2 : Node := Node.el "[document]" []
  [Node.el "table" [] [theadTwo, dateRow, lessonRowSplit]]

/-- Document with no `table` element at all. -/
def docNoTable : Node := Node.el "[document]" [] [Node.el "p" [] [.text "hello"]]

/-- Document whose lesson cell carries no `colspan` attribute. -/
def docBadCell : Node := Node.el "[document]" []
  [Node.el "table" [] [theadTwo, dateRow,
    Node.el "tr" [] [Node.el "td" [("class", "ur")] [.text "История"]]]]

/-- Document whose last header cell is empty (no child nodes), so the
header max colspan silently becomes `None`. -/
def docEmptyHeader : Node := Node.el "[document]" []
  [Node.el "table" [] [Node.el "thead" [] [Node.el "td" [] []], dateRow,
    Node.el "tr" [] [Node.el "td" [("class", "ur"), ("colspan", "1")] [.text "Химия"]]]]

/-- Document with a valid header and a single whole-group lesson cell
(`colspan="2"` equal to the header max colspan). -/
def docWhole : Node := Node.el "[document]" []
  [Node.el "table" [] [theadTwo, dateRow,
    Node.el "tr" [] [Node.el "td" [("class", "ur"), ("colspan", "2")] [.text "Химия"]]]]

/-- A lesson cell with no subject link whose full text ends in a
parenthetical group. -/
def tdNoLink : Node := Node.el "td" [("class", "ur"), ("colspan", "1")]
  [.text "Алгебра (Лек.)"]

/-- A whole-group lesson cell (`colspan="2"`). -/
def tdWholeCell : Node := Node.el "td" [("class", "ur"), ("colspan", "2")]
  [.text "Физика"]

/-- Document whose table has a `thead` whose row has one cell (so the very
first walked row does not have three cells) and a well-formed header
integer. -/
def docEarlyRow : Node := Node.el "[document]" []
  [Node.el "table" [] [Node.el "thead" [] [Node.el "tr" [] [Node.el "td" [] [.text "2"]]]]]

/-- Document whose table has no `thead`, one 1-cell row, then a 3-cell date
row. -/
def docNoThead : Node := Node.el "[document]" []
  [Node.el "table" []
    [ Node.el "tr" [] [Node.el "td" [] [.text "x"]],
      Node.el "tr" [] [Node.el "td" [] [.text "13.01.2026"], Node.el "td" [] [],
                    Node.el "td" [] []] ]]

/-- Document with a table but no `thead` at all (single empty row). -/
def docNoTheadPlain : Node := Node.el "[document]" []
  [Node.el "table" [] [Node.el "tr" [] []]]

def dJan12 : PyDate := ⟨2026, 1, 12⟩
def dJan16 : PyDate := ⟨2026, 1, 16⟩

/-- The single event extracted from `docWhole`. -/
def evDocWhole : LessonEvent :=
  { date := ⟨2026, 1, 13⟩, group_code := "G1", slot_number := 2,
    subgroup := 0, subject_text := "Химия", lesson_type := none,
    teacher_text := none, room_text := none, source_group_url := "u",
    source_journal_url := none, source_teacher_url := none,
    source_room_url := none }

/-- The event extracted from `tdWholeCell` at slot 1, subgroup 0. -/
def evCellWhole : LessonEvent :=
  { date := ⟨2026, 1, 13⟩, group_code := "G1", slot_number := 1,
    subgroup := 0, subject_text := "Физика", lesson_type := none,
    teacher_text := none, room_text := none, source_group_url := "u",
    source_journal_url := none, source_teacher_url := none,
    source_room_url := none }

/-- Totality of the lexicographic comparison. -/
def natsLE_total : ∀ a b : List Nat, natsLE a b = true ∨ natsLE b a = true
  | [], _ => Or.inl rfl
  | _ :: _, [] => Or.inr rfl
  | a :: as, b :: bs => by
      rcases Nat.lt_trichotomy a b with h | h | h
      · left; simp [natsLE, h]
      · subst h
        rcases natsLE_total as bs with h' | h'
        · left; simp [natsLE, h']
        · right; simp [natsLE, h']
      · right; simp [natsLE, h]

/-- Transitivity of the lexicographic comparison. -/
def natsLE_trans : ∀ a b c : List Nat,
    natsLE a b = true → natsLE b c = true → natsLE a c = true
  | [], _, _ => fun _ _ => rfl
  | _ :: _, [], _ => fun h _ => by simp [natsLE] at h
  | _ :: _, _ :: _, [] => fun _ h => by simp [natsLE] at h
  | a :: as, b :: bs, c :: cs => fun h1 h2 => by
      simp only [natsLE, Bool.or_eq_true, Bool.and_eq_true,
        decide_eq_true_eq] at h1 h2 ⊢
      rcases h1 with h1 | ⟨rfl, h1⟩
      · rcases h2 with h2 | ⟨rfl, _⟩
        · exact Or.inl (Nat.lt_trans h1 h2)
        · exact Or.inl h1
      · rcases h2 with h2 | ⟨rfl, h2⟩
        · exact Or.inl h2
        · exact Or.inr ⟨rfl, natsLE_trans as bs cs h1 h2⟩

instance : IsTotal LessonEvent evLE :=
  ⟨fun a b => natsLE_total (evKey a) (evKey b)⟩

instance : IsTrans LessonEvent evLE :=
  ⟨fun a b c h1 h2 => natsLE_trans (evKey a) (evKey b) (evKey c) h1 h2⟩

/-- The cell interpreter copies the subgroup argument into the event it
builds. -/
theorem extract_subgroup_eq (td : Node) (d : PyDate) (g : String)
    (s sg : Nat) (u : String) (ev : LessonEvent)
    (h : extract_event_from_lesson_td td d g s sg u = some ev) :
    ev.subgroup = sg := by
  simp only [extract_event_from_lesson_td] at h
  split at h
  · exact absurd h (by simp)
  · cases Option.some.inj h
    rfl

/-- Claim C1 (code bug): on a document containing no `table` element the
code does not return an empty sequence; `soup.find("table")` yields `None`
and `_colspanCounter(None)` dereferences it, raising `AttributeError`. -/
theorem c1_no_table_raises :
    parse_schedule_from_cg docNoTable "u" "G1" dJan12 dJan16 =
      .error .attributeError := rfl

/-- Claim C2 counterexample: in the claimed scenario (header max colspan 2,
date row `13.01.2026`, lesson row with two colspan-1 lesson cells) it is
false that all returned events carry `slot_number = 1`. -/
theorem c2_counterexample :
    (parse_schedule_from_cg docC2 "cg352.htm" "G1" dJan12 dJan16).map
      (fun evs => evs.all (fun e => e.slot_number == 1)) = .ok false := rfl

/-- Claim C2 amended: the scenario yields exactly two events, subgroups 1
and 2, date 2026-01-13, but both with `slot_number = 2`: the date row
itself is treated as the first lesson row and consumes slot 1. -/
theorem c2_amended_two_events :
    (parse_schedule_from_cg docC2 "cg352.htm" "G1" dJan12 dJan16).map
      (fun evs => evs.map (fun e => (e.date, e.slot_number, e.subgroup))) =
      .ok [(⟨2026, 1, 13⟩, 2, 1), (⟨2026, 1, 13⟩, 2, 2)] := rfl

/-- Claim C3 (code bug): a lesson cell with no `colspan` attribute makes
`int(td.get("colspan"))` raise `TypeError`, so extraction does raise for
malformed content inside an individual lesson cell. -/
theorem c3_missing_colspan_raises :
    parse_schedule_from_cg docBadCell "u" "G1" dJan12 dJan16 =
      .error .typeError := rfl

/-- Claim C4: whenever `parse_schedule_from_cg` returns a sequence, that
sequence is sorted by `(date, slot_number, subgroup)` non-decreasing. -/
theorem c4_output_sorted (soup : Node) (url g : String) (df dt : PyDate)
    (evs : List LessonEvent)
    (h : parse_schedule_from_cg soup url g df dt = .ok evs) :
    List.Sorted evLE evs := by
  unfold parse_schedule_from_cg at h
  cases hraw : parseEventsRaw soup url g with
  | error e => rw [hraw] at h; exact absurd h (by simp [Except.map])
  | ok l =>
      rw [hraw] at h
      simp only [Except.map, Except.ok.injEq] at h
      rw [← h]
      exact List.sorted_insertionSort evLE l

/-- Claim C4 witness at `docWhole`. -/
theorem c4_output_sorted_witness : List.Sorted evLE [evDocWhole] :=
  c4_output_sorted docWhole "u" "G1" dJan12 dJan16 [evDocWhole] rfl

/-- Claim C8: the subject/type split on the two spec examples. -/
theorem c8_subject_type_split :
    parse_subject_and_type "Физическая культура (Лек.)" =
        ("Физическая культура", some "Лек.") ∧
      parse_subject_and_type "Биология ()" = ("Биология", none) :=
  ⟨rfl, rfl⟩

/-- Claim C9: the extraction result is independent of the date window
parameters. -/
theorem c9_date_window_independent (soup : Node) (url g : String)
    (df dt df' dt' : PyDate) :
    parse_schedule_from_cg soup url g df dt =
      parse_schedule_from_cg soup url g df' dt' := rfl

/-- Claim C5 counterexample: when the last header cell carries no displayed
text at all (no child nodes), `_colspanCounter` falls off its loop and
returns `None`; extraction continues silently and returns events (every
lesson cell classified as a subgroup cell) instead of failing. -/
theorem c5_counterexample :
    (parse_schedule_from_cg docEmptyHeader "u" "G1" dJan12 dJan16).map
      (fun evs => evs.map (fun e => (e.subject_text, e.subgroup))) =
      .ok [("Химия", 1)] := rfl

/-- Claim C5 amended: a missing `thead` header element is a hard failure
(`AttributeError` from `None.find_all`); only the no-displayed-text case
silently degrades. -/
theorem c5_amended_missing_thead_fails (soup : Node) (url g : String)
    (df dt : PyDate) (t : Node)
    (h1 : findTag "table" soup = some t)
    (h2 : findTag "thead" t = none) :
    parse_schedule_from_cg soup url g df dt = .error .attributeError := by
  simp only [parse_schedule_from_cg, parseEventsRaw, h1, colspanCounter, h2]
  rfl

/-- Claim C5 witness: the amended theorem applied to a table with no
`thead`. -/
theorem c5_amended_missing_thead_fails_witness :
    parse_schedule_from_cg docNoTheadPlain "u" "G1" dJan12 dJan16 =
      .error .attributeError :=
  c5_amended_missing_thead_fails docNoTheadPlain "u" "G1" dJan12 dJan16
    (Node.el "table" [] [Node.el "tr" [] []]) rfl rfl

/-- Claim C6 counterexample: a lesson cell with no subject link whose full
text ends in a parenthetical is NOT passed through the subject/type split:
the code keeps the full cell text as subject and leaves the type `None`,
rather than producing subject `"Алгебра"` with type `"Лек."`. -/
theorem c6_counterexample :
    (extract_event_from_lesson_td tdNoLink ⟨2026, 1, 13⟩ "G1" 1 1 "u").map
        (fun e => (e.subject_text, e.lesson_type)) =
      some ("Алгебра (Лек.)", none) ∧
    (some ("Алгебра (Лек.)", (none : Option String)) ≠
      some ("Алгебра", some "Лек.")) :=
  ⟨rfl, by decide⟩

/-- Claim C6 amended: for a lesson cell with no subject link and non-empty
visible text, the subject/type split is applied to the empty subject-link
text only; the event keeps the cell's full visible text verbatim as
`subject_text` and `lesson_type` is `None`. -/
theorem c6_amended_fulltext_verbatim (td : Node) (d : PyDate) (g : String)
    (s sg : Nat) (u : String)
    (h1 : findLink "z1" td = none)
    (h2 : getTextSepStrip td ≠ "") :
    (extract_event_from_lesson_td td d g s sg u).map
      (fun e => (e.subject_text, e.lesson_type)) =
    some (getTextSepStrip td, none) := by
  simp only [extract_event_from_lesson_td, h1, if_neg h2]
  rfl

/-- Claim C6 witness: the amended theorem applied to `tdNoLink`. -/
theorem c6_amended_fulltext_verbatim_witness :
    (extract_event_from_lesson_td tdNoLink ⟨2026, 1, 13⟩ "G1" 2 1 "u").map
      (fun e => (e.subject_text, e.lesson_type)) =
    some (getTextSepStrip tdNoLink, none) :=
  c6_amended_fulltext_verbatim tdNoLink ⟨2026, 1, 13⟩ "G1" 2 1 "u" rfl
    (by decide)

/-- Claim C7: during the cell loop of a lesson row, a non-skipped lesson
cell whose parsed `colspan` equals the header's max colspan contributes its
event (when the cell is non-empty) with subgroup 0, wherever the cell sits
in the row and whatever the running subgroup counter is: the produced event
list decomposes around that cell's subgroup-0 event. -/
theorem c7_whole_group_subgroup_zero
    (m : Int) (d : PyDate) (g : String) (slot : Nat) (url : String) (td : Node)
    (hskip : skipCell td = false)
    (hcol : pyInt (attrOf td "colspan") = .ok m) :
    ∀ (pre : List Node) (sg : Nat) (evs : List LessonEvent) (post : List Node),
      processTds (some m) d g slot url sg (pre ++ td :: post) = .ok evs →
      ∃ evsA evsB,
        evs = evsA ++ (extract_event_from_lesson_td td d g slot 0 url).toList
                ++ evsB ∧
        ∀ ev ∈ (extract_event_from_lesson_td td d g slot 0 url).toList,
          ev.subgroup = 0 := by
  intro pre
  induction pre with
  | nil =>
    intro sg evs post h
    rw [List.nil_append] at h
    simp only [processTds, hskip, Bool.false_eq_true, if_false, hcol,
      subgroupFor, eq_self_iff_true, if_true] at h
    cases hrec : processTds (some m) d g slot url 0 post with
    | error e =>
      simp only [hrec] at h
      exact Except.noConfusion h
    | ok l =>
      simp only [hrec] at h
      cases hx : extract_event_from_lesson_td td d g slot 0 url with
      | some ev =>
        simp only [hx, Except.ok.injEq] at h
        refine ⟨[], l, ?_, ?_⟩
        · rw [← h]; simp [hx]
        · intro e he
          simp only [hx, Option.toList_some, List.mem_singleton] at he
          subst he
          exact extract_subgroup_eq td d g slot 0 url e hx
      | none =>
        simp only [hx, Except.ok.injEq] at h
        refine ⟨[], l, ?_, ?_⟩
        · rw [← h]; simp [hx]
        · intro e he
          simp only [hx, Option.toList_none] at he
          exact absurd he (List.not_mem_nil e)
  | cons p ps ih =>
    intro sg evs post h
    rw [List.cons_append] at h
    by_cases hs : skipCell p = true
    · simp only [processTds, hs, if_true] at h
      exact ih sg evs post h
    · have hs' : skipCell p = false := by
        revert hs; cases skipCell p <;> simp
      simp only [processTds, hs', Bool.false_eq_true, if_false] at h
      cases hc : pyInt (attrOf p "colspan") with
      | error e =>
        simp only [hc] at h
        exact Except.noConfusion h
      | ok c =>
        simp only [hc] at h
        cases hrec : processTds (some m) d g slot url
            (subgroupFor (some m) c sg) (ps ++ td :: post) with
        | error e =>
          simp only [hrec] at h
          exact Except.noConfusion h
        | ok l =>
          simp only [hrec] at h
          obtain ⟨A, B, hAB, hsub⟩ := ih (subgroupFor (some m) c sg) l post hrec
          cases hx : extract_event_from_lesson_td p d g slot
              (subgroupFor (some m) c sg) url with
          | some ev =>
            simp only [hx, Except.ok.injEq] at h
            refine ⟨ev :: A, B, ?_, hsub⟩
            rw [← h, hAB]
            simp
          | none =>
            simp only [hx, Except.ok.injEq] at h
            exact ⟨A, B, h ▸ hAB, hsub⟩

/-- Claim C7 witness: a single lesson cell with `colspan="2"` against a
header max colspan of 2 yields exactly its one event with subgroup 0. -/
theorem c7_whole_group_subgroup_zero_witness :
    ∃ evsA evsB,
      [evCellWhole] =
          evsA ++ (extract_event_from_lesson_td tdWholeCell ⟨2026, 1, 13⟩
            "G1" 1 0 "u").toList ++ evsB ∧
      ∀ ev ∈ (extract_event_from_lesson_td tdWholeCell ⟨2026, 1, 13⟩
          "G1" 1 0 "u").toList, ev.subgroup = 0 :=
  c7_whole_group_subgroup_zero 2 ⟨2026, 1, 13⟩ "G1" 1 "u" tdWholeCell rfl rfl
    [] 0 [evCellWhole] [] rfl

/-- Claim C10 counterexample: a document whose table has a row before the
first three-cell row but lacks a `thead` fails earlier, in the header
colspan computation, with `AttributeError` rather than the claimed
unbound-local error. -/
theorem c10_counterexample :
    parse_schedule_from_cg docNoThead "u" "G1" dJan12 dJan16 =
        .error .attributeError ∧
      PyErr.attributeError ≠ PyErr.unboundLocalError :=
  ⟨rfl, by decide⟩

/-- Claim C10 amended: provided the header max-colspan computation
succeeds, a table whose first walked row does not have exactly three cells
(equivalently: some row precedes the first three-cell row) makes the walker
read the never-assigned `table_date` local, raising `UnboundLocalError`. -/
theorem c10_amended_unbound_local (soup : Node) (url g : String)
    (df dt : PyDate) (t : Node) (mc : Option Int) (tr0 : Node)
    (rest : List Node)
    (h1 : findTag "table" soup = some t)
    (h2 : colspanCounter (some t) = .ok mc)
    (h3 : findAllTags "tr" t = tr0 :: rest)
    (h4 : ¬ (findAllTags "td" tr0).length = 3) :
    parse_schedule_from_cg soup url g df dt = .error .unboundLocalError := by
  simp only [parse_schedule_from_cg, parseEventsRaw, h1, h2, h3]
  rw [walkRows, if_neg h4]
  rfl

/-- Claim C10 witness: a table whose `thead` row has a single cell (so the
first walked row has one cell) with a well-formed header integer. -/
theorem c10_amended_unbound_local_witness :
    parse_schedule_from_cg docEarlyRow "u" "G1" dJan12 dJan16 =
      .error .unboundLocalError :=
  c10_amended_unbound_local docEarlyRow "u" "G1" dJan12 dJan16
    (Node.el "table" []
      [Node.el "thead" [] [Node.el "tr" [] [Node.el "td" [] [.text "2"]]]])
    (some 2) (Node.el "tr" [] [Node.el "td" [] [.text "2"]]) [] rfl rfl rfl
    (by decide)
